import Mathlib

/-!
# Verification of the waveform-visualizer core algorithms

Shallow embedding of the channel-layout engine, the per-pixel waveform
reduction, the parameter setters, the disposal path and the GPU context
manager of the waveform-visualizer repository, together with proofs of the
specified properties.

Sources embedded:
* `WaveformVisualizer.computeChannelLayout` (the pure layout algorithm),
* the WGSL compute shader `shaderComputeWaveform.wgsl` (per-pixel reduction,
  modelled over `ℚ`; the index arithmetic of the verified scenarios is exact
  in 32-bit floats, so the rational idealization is faithful there),
* the `maskGroup` setter, `loadBinaryFile` and `dispose` of
  `WaveformVisualizer`,
* `GpuContextManager.configureDevice`, `configureCanvas` and the
  dynamic-range change handler (modelled as effect-logging state
  transitions; asynchronous steps are collapsed to their sequential order
  on the single host thread).
-/

/-! ## Channel layout engine -/

/--
The remainder-distribution `while` loop of
`WaveformVisualizer.computeChannelLayout`.  The JS loop has no fuel; the
first `ℕ` argument is an explicit iteration bound, and
`distributeExtras_terminating` below proves the bound is never reached
(the loop exits with `remaining = 0`), so the fueled function coincides
with the source loop.  The pair returned is the `extraForChannel` array
and the final value of `remaining`.
-/
def distributeExtras (channelCount : ℕ) : ℕ → ℕ → ℕ → List ℕ → List ℕ × ℕ
  | 0, remaining, _, extraForChannel => (extraForChannel, remaining)
  | fuel + 1, remaining, offset, extraForChannel =>
    if remaining = 0 then (extraForChannel, remaining)
    else
      let leftIndex : ℤ := ((channelCount / 2 : ℕ) : ℤ) - 1 - (offset : ℤ)
      let rightIndex : ℕ := channelCount / 2 + offset
      let extra₁ := if 0 ≤ leftIndex then extraForChannel.set leftIndex.toNat 1 else extraForChannel
      let remaining₁ := if 0 ≤ leftIndex then remaining - 1 else remaining
      if remaining₁ = 0 then (extra₁, remaining₁)
      else
        let extra₂ := if rightIndex < channelCount then extra₁.set rightIndex 1 else extra₁
        let remaining₂ := if rightIndex < channelCount then remaining₁ - 1 else remaining₁
        distributeExtras channelCount fuel remaining₂ (offset + 1) extra₂

/--
The offset-accumulation loop of `computeChannelLayout`:
`offsets[i] = acc` before `acc += heights[i]`.
-/
def accumulateOffsets : List ℕ → ℕ → List ℕ
  | [], _ => []
  | h :: t, acc => acc :: accumulateOffsets t (acc + h)

/--
`WaveformVisualizer.computeChannelLayout(height, channelCount)`:
base height `⌊height / channelCount⌋`, remainder distributed by the
center-out walk, heights `base + extra[i]`, offsets accumulated from 0.
Returns `(offsets, heights)`.
-/
def computeChannelLayout (height channelCount : ℕ) : List ℕ × List ℕ :=
  let baseHeight := height / channelCount
  let remainder := height % channelCount
  let extraForChannel :=
    (distributeExtras channelCount channelCount remainder 0 (List.replicate channelCount 0)).1
  let heights := extraForChannel.map (fun extra => baseHeight + extra)
  let offsets := accumulateOffsets heights 0
  (offsets, heights)

/--
Modelled from the spec: the order in which the walk grants extra pixels —
"starting from the two channels nearest the numeric center, alternately
grant one extra pixel to the left-of-center channel then the
right-of-center channel, walking outward".  Step `k` of the walk offers
channel `⌊channelCount/2⌋ - 1 - k` (when it exists) and then channel
`⌊channelCount/2⌋ + k` (when it exists).
-/
def grantOrder (channelCount : ℕ) : List ℕ :=
  (List.range channelCount).flatMap (fun step =>
    (if step + 1 ≤ channelCount / 2 then [channelCount / 2 - 1 - step] else []) ++
    (if channelCount / 2 + step < channelCount then [channelCount / 2 + step] else []))

/-! ## WGSL compute shader `shaderComputeWaveform.wgsl` (per-pixel reduction)

Sample values are modelled over `ℚ`.  The index arithmetic (u32 casts of
floors of f32 products) is exact in f32 for the sizes involved in the
verified scenarios, so `Nat.floor` over `ℚ` is faithful there. -/

/-- `samplesPerChannel = arrayLength(&waveform) / channelCount` (u32 division). -/
def samplesPerChannelOf (waveformLength channelCount : ℕ) : ℕ :=
  waveformLength / channelCount

/-- `startSample = u32(floor(f32(gid.x) * samplesPerPixel))`. -/
def sampleWindowStart (samplesPerChannel canvasWidth x : ℕ) : ℕ :=
  Nat.floor ((x : ℚ) * ((samplesPerChannel : ℚ) / (canvasWidth : ℚ)))

/-- `endSample = u32(floor(f32(gid.x + 1u) * samplesPerPixel))`. -/
def sampleWindowStop (samplesPerChannel canvasWidth x : ℕ) : ℕ :=
  Nat.floor (((x : ℚ) + 1) * ((samplesPerChannel : ℚ) / (canvasWidth : ℚ)))

/--
The max-reduction loop of the compute shader:
starting from `maxValue = 0.0`, for `i` in `[startSample, stopSample)`
take the normalized sample `waveform[i * channelCount + channelIndex] /
firstChannelPeak` whenever it exceeds the current maximum.
`stopSample` is `min endSample samplesPerChannel` (the loop condition is
`i < endSample && i < samplesPerChannel`).
-/
def windowMaxValue (waveform : List ℚ) (firstChannelPeak : ℚ)
    (channelCount channelIndex startSample stopSample : ℕ) : ℚ :=
  List.foldl (fun maxValue i =>
      let rawValue := waveform.getD (i * channelCount + channelIndex) 0
      let normalizedValue := rawValue / firstChannelPeak
      if normalizedValue > maxValue then normalizedValue else maxValue)
    0 (List.range' startSample (stopSample - startSample))

/-- The `Params` uniform of the compute shader. -/
structure WgslParams where
  firstChannelPeak : ℚ
  boost : ℚ
  offset : ℚ
  channelCount : ℕ
  canvasWidth : ℕ
  canvasHeight : ℕ
  groupMask0 : ℚ
  groupMask1 : ℚ
  groupMask2 : ℚ

/--
The channel-determination loop: the first channel whose band
`[offset, offset + height)` contains the pixel's `y`; `0` when none does.
-/
def findChannelIndex (offsets heights : List ℚ) (channelCount : ℕ) (y : ℚ) : ℕ :=
  (((List.range channelCount).find? (fun i =>
      decide (offsets.getD i 0 ≤ y ∧ y < offsets.getD i 0 + heights.getD i 0))).getD 0)

/--
The symmetric vertical bar of the shader: `(1,1)` when the pixel's local y
lies within `[lineCenter - halfHeight + 0, lineCenter + halfHeight + 1]`,
else `(0,0)`.
-/
def barColor (channelHeight localY maxValue : ℚ) : ℚ × ℚ :=
  let lineCenter := channelHeight / 2
  let halfHeight := maxValue * (1 / 2) * channelHeight
  let yDown := lineCenter - halfHeight + 0
  let yUp := lineCenter + halfHeight + 1
  if localY ≥ yDown ∧ localY ≤ yUp then (1, 1) else (0, 0)

/-- Ambisonics masking groups: channels `0..3 → 0`, `4..8 → 1`, else `2`. -/
def maskGroupIndexOf (channelIndex : ℕ) : ℕ :=
  if channelIndex ≤ 3 then 0 else if channelIndex ≤ 8 then 1 else 2

/-- `params.groupMask[maskGroupIndex]`. -/
def maskFractionOf (p : WgslParams) (maskGroupIndex : ℕ) : ℚ :=
  if maskGroupIndex = 0 then p.groupMask0
  else if maskGroupIndex = 1 then p.groupMask1
  else p.groupMask2

/--
The shader entry point `main` for one invocation `(x, y)`: `none` models
the early return of out-of-surface invocations (no output written),
`some (brightness, alpha)` the value stored to `computeOutput`.
-/
def shaderComputePixel (p : WgslParams) (offsets heights waveform peaks : List ℚ)
    (x y : ℕ) : Option (ℚ × ℚ) :=
  if x ≥ p.canvasWidth ∨ y ≥ p.canvasHeight then none
  else
    let channelCount := p.channelCount
    let channelIndex := findChannelIndex offsets heights channelCount (y : ℚ)
    let channelOffset := offsets.getD channelIndex 0
    let channelHeight := heights.getD channelIndex 0
    let localY := (y : ℚ) - channelOffset
    let samplesPerChannel := samplesPerChannelOf waveform.length channelCount
    let startSample := sampleWindowStart samplesPerChannel p.canvasWidth x
    let stopSample := min (sampleWindowStop samplesPerChannel p.canvasWidth x) samplesPerChannel
    let maxValue := windowMaxValue waveform p.firstChannelPeak channelCount channelIndex
      startSample stopSample
    let waveformIndex := startSample * channelCount + channelIndex
    let rawPeakValue := peaks.getD waveformIndex 0
    let peakValue := rawPeakValue / p.firstChannelPeak * p.boost + p.offset
    let waveformColor := barColor channelHeight localY maxValue
    let maskGroupIndex := maskGroupIndexOf channelIndex
    let maskFraction := maskFractionOf p maskGroupIndex
    let xFraction := (x : ℚ) / (p.canvasWidth : ℚ)
    let maskedPeak := if xFraction > maskFraction then 1 else peakValue
    some (min waveformColor.1 maskedPeak, waveformColor.2)

/-- A tiny concrete parameter block used to instantiate shader theorems. -/
def wgslExampleParams : WgslParams :=
  { firstChannelPeak := 1, boost := 1, offset := 0, channelCount := 1
    canvasWidth := 2, canvasHeight := 1
    groupMask0 := 0, groupMask1 := 0, groupMask2 := 0 }

/-! ## WaveformVisualizer: maskGroup setter, binary loading, disposal -/

/-- The observable per-instance state touched by the `maskGroup` setter. -/
structure VizState where
  maskGroup : List ℚ
  needsRender : Bool

/--
The `maskGroup` setter of `WaveformVisualizer`.  `index : ℤ` models a JS
number that is an integer (the setter's `typeof`/`Number.isInteger`
checks); `value : ℚ` models a non-NaN JS number.  The two validation
throws happen before any mutation; on success the stored array is updated
and the dirty flag re-armed (`writeParamsBuffer` and `markDirty` both set
it).
-/
def setMaskGroup (s : VizState) (index : ℤ) (value : ℚ) : Except String VizState :=
  if ¬(index = 0 ∨ index = 1 ∨ index = 2) then
    Except.error "Index must be one of 0, 1, or 2"
  else if value < 0 ∨ value > 1 then
    Except.error "Value must be a number between 0 and 1"
  else
    Except.ok { maskGroup := s.maskGroup.set index.toNat value, needsRender := true }

/--
`WaveformVisualizer.loadBinaryFile`, at the level of array lengths: a
failed fetch throws; otherwise `new Float32Array(arrayBuffer)` throws a
`RangeError` when the byte length is not a multiple of 4 and yields an
array of `byteLength / 4` elements when it is.  No divisibility-by-
channel-count check exists anywhere on this path.
-/
def loadBinaryFile (responseOk : Bool) (byteLength : ℕ) : Except String ℕ :=
  if responseOk = false then Except.error "Failed to load binary file"
  else if byteLength % 4 = 0 then Except.ok (byteLength / 4)
  else Except.error "RangeError: byte length of Float32Array should be a multiple of 4"

/-- The external collaborator reached from `dispose`. -/
structure OrchestratorModel where
  hasUnregisterFn : Bool
  unregisterFails : Bool
deriving DecidableEq

/-- The nullable fields of `WaveformVisualizer` that `dispose` touches. -/
structure VizLifecycleState where
  disposed : Bool
  needsRender : Bool
  animationFrameId : Option ℕ
  standaloneRafId : Option ℕ
  resizeObserver : Bool
  paramsBuffer : Bool
  channelLayoutBuffer : Bool
  waveformDataBuffer : Bool
  backgroundDataBuffer : Bool
  computeOutputBuffer : Bool
  orchestrator : Option OrchestratorModel
  orchestratorParticipantId : Option String
  gpuContextManager : Bool
  onReconfigureCallback : Bool
deriving DecidableEq

/-- The externally observable operations `dispose` can perform. -/
inductive DisposeEffect
  | cancelFrame (id : ℕ)
  | disconnectObserver
  | destroyBuffer (name : String)
  | unregisterOrchestrator (id : String)
  | warnUnregisterFailed (id : String)
  | unsubscribeReconfigure
deriving DecidableEq

/--
`WaveformVisualizer.dispose`, as a state transition emitting the effects
it performs.  Every effectful statement of the source is guarded on the
corresponding field being non-null (`if (x)` / `x?.` / the orchestrator
conjunction), every field is nulled afterwards, and a failing orchestrator
unregister is caught and logged (`warnUnregisterFailed`) rather than
propagated — the function is total.
-/
def dispose (s : VizLifecycleState) : VizLifecycleState × List DisposeEffect :=
  let cancelEffects :=
    (match s.animationFrameId with
      | some id => [DisposeEffect.cancelFrame id]
      | none => []) ++
    (match s.standaloneRafId with
      | some id => [DisposeEffect.cancelFrame id]
      | none => [])
  let observerEffects := if s.resizeObserver then [DisposeEffect.disconnectObserver] else []
  let bufferEffects :=
    (if s.paramsBuffer then [DisposeEffect.destroyBuffer "paramsBuffer"] else []) ++
    (if s.channelLayoutBuffer then [DisposeEffect.destroyBuffer "channelLayoutBuffer"] else []) ++
    (if s.waveformDataBuffer then [DisposeEffect.destroyBuffer "waveformDataBuffer"] else []) ++
    (if s.backgroundDataBuffer then [DisposeEffect.destroyBuffer "backgroundDataBuffer"] else []) ++
    (if s.computeOutputBuffer then [DisposeEffect.destroyBuffer "computeOutputBuffer"] else [])
  let orchestratorEffects :=
    match s.orchestrator, s.orchestratorParticipantId with
    | some orch, some id =>
        if orch.hasUnregisterFn then
          if orch.unregisterFails then
            [DisposeEffect.unregisterOrchestrator id, DisposeEffect.warnUnregisterFailed id]
          else [DisposeEffect.unregisterOrchestrator id]
        else []
    | _, _ => []
  let unsubscribeEffects :=
    if s.gpuContextManager ∧ s.onReconfigureCallback
    then [DisposeEffect.unsubscribeReconfigure] else []
  ({ disposed := true
     needsRender := false
     animationFrameId := none
     standaloneRafId := none
     resizeObserver := false
     paramsBuffer := false
     channelLayoutBuffer := false
     waveformDataBuffer := false
     backgroundDataBuffer := false
     computeOutputBuffer := false
     orchestrator := none
     orchestratorParticipantId := none
     gpuContextManager := false
     onReconfigureCallback := false },
   cancelEffects ++ observerEffects ++ bufferEffects ++ orchestratorEffects ++
     unsubscribeEffects)

/-- `n` successive `dispose` calls on the same instance, accumulating effects. -/
def disposeTimes : ℕ → VizLifecycleState → VizLifecycleState × List DisposeEffect
  | 0, s => (s, [])
  | n + 1, s =>
    let step := dispose s
    let rest := disposeTimes n step.1
    (rest.1, step.2 ++ rest.2)

/-! ## GpuContextManager -/

/-- The `GpuContext` record owned by the manager (`device` is an abstract handle). -/
structure GpuContextData where
  device : ℕ
  format : Option String
  colorSpace : Option String
  internalFormat : String
  isHighDynamicRange : Option Bool
deriving DecidableEq

/-- Host environment facts `configureDevice` depends on. -/
structure GpuEnv where
  gpuAvailable : Bool
  adapterAvailable : Bool
  device : ℕ
deriving DecidableEq

/-- Externally observable operations of the manager. -/
inductive GpuEffect
  | requestAdapter
  | requestDevice
  | notify (listener : ℕ)
  | configured (canvas : ℕ) (format : String) (colorSpace : String)
  | warnReconfigFailed (canvas : ℕ)
deriving DecidableEq

/--
Manager state: the context (null before `configureDevice`), the listener
set and the tracked canvas set, both in insertion order.
-/
structure ManagerState where
  context : Option GpuContextData
  listeners : List ℕ
  canvases : List ℕ
deriving DecidableEq

/--
`GpuContextManager.configureDevice`: throws when WebGPU is absent,
returns immediately when the context already exists (no adapter/device
request, no broadcast), otherwise requests adapter and device and
installs `new GpuContext(device, null, null, "rgba16float")` (the
constructor's fifth argument is not passed: HDR flag left unset).
-/
def configureDevice (env : GpuEnv) (s : ManagerState) :
    Except String (ManagerState × List GpuEffect) :=
  if env.gpuAvailable = false then Except.error "WebGPU not supported."
  else if s.context.isSome then Except.ok (s, [])
  else if env.adapterAvailable = false then Except.error "WebGPU adapter not available."
  else
    Except.ok
      ({ s with context := some ⟨env.device, none, none, "rgba16float", none⟩ },
       [GpuEffect.requestAdapter, GpuEffect.requestDevice])

/-- The ordered format preference list of `configureCanvas`. -/
def formatFallbacks : List String := ["rgba16float", "rgba8unorm"]

/-- The ordered color-space preference list of `configureCanvas`. -/
def colorSpaceFallbacks : List String := ["rec2100-hlg", "display-p3", "srgb"]

/--
The (format, colorSpace) pairs attempted in order by `configureCanvas`,
skipping the known-bad 8-bit-HDR combination
(`rgba8unorm` + `rec2100-hlg`).
-/
def candidatePairs : List (String × String) :=
  formatFallbacks.flatMap (fun format =>
    colorSpaceFallbacks.filterMap (fun colorSpace =>
      if format = "rgba8unorm" ∧ colorSpace = "rec2100-hlg" then none
      else some (format, colorSpace)))

/-- Set-insertion into the tracked canvas collection (`Set.add`). -/
def addCanvas (canvases : List ℕ) (canvas : ℕ) : List ℕ :=
  if canvas ∈ canvases then canvases else canvases ++ [canvas]

/--
`GpuContextManager.configureCanvas`: try each candidate pair until the
surface accepts one (`accept` models whether `context.configure` succeeds
for a given canvas and pair); on success record format/colorSpace,
broadcast to all listeners if the globally active pair changed, and track
the canvas.  When every candidate fails, attempt the guaranteed-safe
fallback (`rgba8unorm` with the default `srgb` color space); if even that
configure call throws, the error propagates.
-/
def configureCanvas (accept : ℕ → String × String → Bool) (s : ManagerState)
    (canvas : ℕ) : Except String (ManagerState × List GpuEffect) :=
  match s.context with
  | none => Except.error "GpuContextManager not initialized yet"
  | some ctx =>
    match candidatePairs.find? (fun pair => accept canvas pair) with
    | some pair =>
      let changed := ctx.format ≠ some pair.1 ∨ ctx.colorSpace ≠ some pair.2
      let notifyEffects := if changed then s.listeners.map GpuEffect.notify else []
      Except.ok
        ({ s with
            context := some { ctx with format := some pair.1, colorSpace := some pair.2 }
            canvases := addCanvas s.canvases canvas },
         [GpuEffect.configured canvas pair.1 pair.2] ++ notifyEffects)
    | none =>
      if accept canvas ("rgba8unorm", "srgb") then
        let changed := ctx.format ≠ some "rgba8unorm" ∨ ctx.colorSpace ≠ some "srgb"
        let notifyEffects := if changed then s.listeners.map GpuEffect.notify else []
        Except.ok
          ({ s with
              context := some { ctx with format := some "rgba8unorm", colorSpace := some "srgb" }
              canvases := addCanvas s.canvases canvas },
           [GpuEffect.configured canvas "rgba8unorm" "srgb"] ++ notifyEffects)
      else Except.error "configure failed"

/--
One iteration of the handler's canvas loop: `try { configureCanvas }
catch { console.warn }` — a failure is logged and the loop continues with
the state unchanged.
-/
def reconfigureStep (accept : ℕ → String × String → Bool)
    (acc : ManagerState × List GpuEffect) (canvas : ℕ) :
    ManagerState × List GpuEffect :=
  match configureCanvas accept acc.1 canvas with
  | Except.ok (s', effects) => (s', acc.2 ++ effects)
  | Except.error _ => (acc.1, acc.2 ++ [GpuEffect.warnReconfigFailed canvas])

/--
The manager's `(dynamic-range: high)` change handler: store the HDR flag
on the context (a JS `TypeError` if the context is still null), then —
since the context exists — invoke every listener, then reconfigure every
tracked canvas in sequence via `reconfigureStep`.
-/
def hdrChange (accept : ℕ → String × String → Bool) (s : ManagerState)
    (isHigh : Bool) : Except String (ManagerState × List GpuEffect) :=
  match s.context with
  | none => Except.error "TypeError: cannot set a property of null"
  | some ctx =>
    let s₀ : ManagerState :=
      { s with context := some { ctx with isHighDynamicRange := some isHigh } }
    let notifyEffects := s₀.listeners.map GpuEffect.notify
    Except.ok (s₀.canvases.foldl (reconfigureStep accept) (s₀, notifyEffects))

/-! ## Theorems -/

theorem distributeExtras_length (channelCount : ℕ) :
    ∀ fuel remaining offset extra,
      ((distributeExtras channelCount fuel remaining offset extra).1).length = extra.length := by
  intro fuel
  induction fuel with
  | zero => intro remaining offset extra; rfl
  | succ fuel ih =>
    intro remaining offset extra
    simp only [distributeExtras]
    repeat' split
    all_goals simp [ih, List.length_set]

theorem distributeExtras_zero_remaining (channelCount : ℕ) :
    ∀ fuel offset extra,
      distributeExtras channelCount fuel 0 offset extra = (extra, 0) := by
  intro fuel offset extra
  cases fuel <;> simp [distributeExtras]

-- A quick concrete check of the embedding, at the spec's concrete case.
example : computeChannelLayout 10 4 = ([0, 2, 5, 8], [2, 3, 3, 2]) := by decide

example : computeChannelLayout 16 16 =
    ([0, 1, 2, 3, 4, 5, 6, 7, 8, 9, 10, 11, 12, 13, 14, 15],
     [1, 1, 1, 1, 1, 1, 1, 1, 1, 1, 1, 1, 1, 1, 1, 1]) := by decide

/--
Loop invariant of the remainder-distribution walk: as long as `remaining`
does not exceed the number of still-unvisited valid slots on the left
(`channelCount/2 - offset`) plus those on the right
(`(channelCount - channelCount/2) - offset`), and does not exceed the fuel,
the loop exits with `remaining = 0` and the result does not depend on any
additional fuel.
-/
theorem distributeExtras_invariant (channelCount : ℕ) :
    ∀ fuel remaining offset extra, remaining ≤ fuel →
      remaining ≤ (channelCount / 2 - offset) +
        ((channelCount - channelCount / 2) - offset) →
      (distributeExtras channelCount fuel remaining offset extra).2 = 0 ∧
      ∀ k, distributeExtras channelCount (fuel + k) remaining offset extra =
        distributeExtras channelCount fuel remaining offset extra := by
  intro fuel
  induction fuel with
  | zero =>
    intro remaining offset extra hf _hv
    have h0 : remaining = 0 := Nat.le_zero.mp hf
    subst h0
    refine ⟨rfl, fun k => ?_⟩
    rw [distributeExtras_zero_remaining]
    rfl
  | succ fuel ih =>
    intro remaining offset extra hf hv
    by_cases h0 : remaining = 0
    · subst h0
      refine ⟨by simp [distributeExtras], fun k => ?_⟩
      rw [distributeExtras_zero_remaining, distributeExtras_zero_remaining]
    · have key : ∀ k,
          (distributeExtras channelCount (fuel + 1) remaining offset extra).2 = 0 ∧
          distributeExtras channelCount (fuel + 1 + k) remaining offset extra =
            distributeExtras channelCount (fuel + 1) remaining offset extra := by
        intro k
        have hk : fuel + 1 + k = (fuel + k) + 1 := by omega
        rw [hk]
        simp only [distributeExtras]
        split_ifs with h1 h2 h3
        · -- left slot granted and the loop breaks with remaining = 0
          exact ⟨h2, rfl⟩
        · -- left and right slots both granted this round
          have ihs := ih (remaining - 1 - 1) (offset + 1)
            ((extra.set (((channelCount / 2 : ℕ) : ℤ) - 1 - (offset : ℤ)).toNat 1).set
              (channelCount / 2 + offset) 1) (by omega) (by omega)
          exact ⟨ihs.1, ihs.2 k⟩
        · -- only the left slot granted this round
          have ihs := ih (remaining - 1) (offset + 1)
            (extra.set (((channelCount / 2 : ℕ) : ℤ) - 1 - (offset : ℤ)).toNat 1)
            (by omega) (by omega)
          exact ⟨ihs.1, ihs.2 k⟩
        · -- only the right slot granted this round
          have ihs := ih (remaining - 1) (offset + 1)
            (extra.set (channelCount / 2 + offset) 1) (by omega) (by omega)
          exact ⟨ihs.1, ihs.2 k⟩
        · -- both walk indices out of range: the invariant forces remaining = 0
          exact absurd (by omega) h0
      exact ⟨(key 0).1, fun k => (key k).2⟩

theorem distributeExtras_sum :
    ∀ channelCount < 17, ∀ r < channelCount,
      ((distributeExtras channelCount channelCount r 0
        (List.replicate channelCount 0)).1).sum = r := by decide

theorem distributeExtras_le_one :
    ∀ channelCount < 17, ∀ r < channelCount,
      ∀ e ∈ (distributeExtras channelCount channelCount r 0
        (List.replicate channelCount 0)).1, e ≤ 1 := by decide

theorem distributeExtras_take_char :
    ∀ channelCount < 17, ∀ r < channelCount,
      (distributeExtras channelCount channelCount r 0
        (List.replicate channelCount 0)).1 =
      (List.range channelCount).map
        (fun i => if i ∈ (grantOrder channelCount).take r then 1 else 0) := by decide

theorem accumulateOffsets_length :
    ∀ (hs : List ℕ) (acc : ℕ), (accumulateOffsets hs acc).length = hs.length := by
  intro hs
  induction hs with
  | nil => intro acc; rfl
  | cons h t ih => intro acc; simp [accumulateOffsets, ih]

theorem accumulateOffsets_getD_zero (hs : List ℕ) (acc : ℕ) (hne : hs ≠ []) :
    (accumulateOffsets hs acc).getD 0 0 = acc := by
  cases hs with
  | nil => exact absurd rfl hne
  | cons h t => rfl

theorem accumulateOffsets_getD_succ :
    ∀ (hs : List ℕ) (acc i : ℕ), i + 1 < hs.length →
      (accumulateOffsets hs acc).getD (i + 1) 0 =
        (accumulateOffsets hs acc).getD i 0 + hs.getD i 0 := by
  intro hs
  induction hs with
  | nil => intro acc i hi; simp at hi
  | cons h t ih =>
    intro acc i hi
    cases i with
    | zero =>
      have ht : t ≠ [] := by
        intro he
        rw [he] at hi
        simp at hi
      simp only [accumulateOffsets, List.getD_cons_succ, List.getD_cons_zero]
      rw [accumulateOffsets_getD_zero t (acc + h) ht]
    | succ i =>
      simp only [accumulateOffsets, List.getD_cons_succ]
      exact ih (acc + h) i (by simpa using hi)

theorem sum_map_add_const :
    ∀ (l : List ℕ) (b : ℕ), (l.map (fun e => b + e)).sum = l.length * b + l.sum := by
  intro l
  induction l with
  | nil => intro b; simp
  | cons h t ih =>
    intro b
    simp [ih]
    ring

theorem computeChannelLayout_heights (height channelCount : ℕ) :
    (computeChannelLayout height channelCount).2 =
      ((distributeExtras channelCount channelCount (height % channelCount) 0
        (List.replicate channelCount 0)).1).map
        (fun extra => height / channelCount + extra) := rfl

theorem computeChannelLayout_offsets (height channelCount : ℕ) :
    (computeChannelLayout height channelCount).1 =
      accumulateOffsets ((computeChannelLayout height channelCount).2) 0 := rfl

/--
Claim C1: for every channel count `C ∈ [1,16]` and height `H ≥ 0`,
`computeChannelLayout(H, C)` returns offsets and heights lists of length
`C` with all heights nonnegative, the heights summing exactly to `H`,
`offsets[0] = 0`, `offsets[i+1] = offsets[i] + heights[i]` for `i < C-1`
(contiguous, no gaps or overlaps), and any two heights differing by at
most one.
-/
theorem computeChannelLayout_invariants (channelCount height : ℕ)
    (hc1 : 1 ≤ channelCount) (hc16 : channelCount ≤ 16) :
    ((computeChannelLayout height channelCount).1).length = channelCount ∧
    ((computeChannelLayout height channelCount).2).length = channelCount ∧
    (∀ h ∈ (computeChannelLayout height channelCount).2, 0 ≤ h) ∧
    ((computeChannelLayout height channelCount).2).sum = height ∧
    ((computeChannelLayout height channelCount).1).getD 0 0 = 0 ∧
    (∀ i, i + 1 < channelCount →
      ((computeChannelLayout height channelCount).1).getD (i + 1) 0 =
        ((computeChannelLayout height channelCount).1).getD i 0 +
        ((computeChannelLayout height channelCount).2).getD i 0) ∧
    (∀ i j, i < channelCount → j < channelCount →
      ((computeChannelLayout height channelCount).2).getD i 0 ≤
        ((computeChannelLayout height channelCount).2).getD j 0 + 1) := by
  have hr : height % channelCount < channelCount := Nat.mod_lt _ (by omega)
  have hextralen :
      ((distributeExtras channelCount channelCount (height % channelCount) 0
        (List.replicate channelCount 0)).1).length = channelCount := by
    rw [distributeExtras_length]
    exact List.length_replicate _ _
  have hhlen : ((computeChannelLayout height channelCount).2).length = channelCount := by
    rw [computeChannelLayout_heights, List.length_map, hextralen]
  have holen : ((computeChannelLayout height channelCount).1).length = channelCount := by
    rw [computeChannelLayout_offsets, accumulateOffsets_length, hhlen]
  have hne : (computeChannelLayout height channelCount).2 ≠ [] := by
    intro he
    rw [he] at hhlen
    simp at hhlen
    omega
  have hgetD : ∀ k, k < channelCount →
      ((computeChannelLayout height channelCount).2).getD k 0 =
        height / channelCount +
        ((distributeExtras channelCount channelCount (height % channelCount) 0
          (List.replicate channelCount 0)).1).getD k 0 := by
    intro k hk
    rw [computeChannelLayout_heights,
      List.getD_eq_getElem _ _ (by rw [List.length_map, hextralen]; omega),
      List.getElem_map, List.getD_eq_getElem _ _ (by rw [hextralen]; omega)]
  have hle1 : ∀ k, k < channelCount →
      ((distributeExtras channelCount channelCount (height % channelCount) 0
        (List.replicate channelCount 0)).1).getD k 0 ≤ 1 := by
    intro k hk
    apply distributeExtras_le_one channelCount (by omega) _ hr
    rw [List.getD_eq_getElem _ _ (by rw [hextralen]; omega)]
    exact List.getElem_mem _
  refine ⟨holen, hhlen, fun h _ => Nat.zero_le h, ?_, ?_, ?_, ?_⟩
  · rw [computeChannelLayout_heights, sum_map_add_const, hextralen,
      distributeExtras_sum channelCount (by omega) _ hr]
    exact Nat.div_add_mod height channelCount
  · rw [computeChannelLayout_offsets]
    exact accumulateOffsets_getD_zero _ 0 hne
  · intro i hi
    rw [computeChannelLayout_offsets]
    exact accumulateOffsets_getD_succ _ 0 i (by rw [hhlen]; exact hi)
  · intro i j hi hj
    rw [hgetD i hi, hgetD j hj]
    have h1 := hle1 i hi
    omega

/--
Concrete instantiation of claim C1 at `channelCount = 4`, `height = 10`.
-/
theorem claim1_layout_witness :
    ((computeChannelLayout 10 4).1).length = 4 ∧
    ((computeChannelLayout 10 4).2).length = 4 ∧
    (∀ h ∈ (computeChannelLayout 10 4).2, 0 ≤ h) ∧
    ((computeChannelLayout 10 4).2).sum = 10 ∧
    ((computeChannelLayout 10 4).1).getD 0 0 = 0 ∧
    (∀ i, i + 1 < 4 →
      ((computeChannelLayout 10 4).1).getD (i + 1) 0 =
        ((computeChannelLayout 10 4).1).getD i 0 +
        ((computeChannelLayout 10 4).2).getD i 0) ∧
    (∀ i j, i < 4 → j < 4 →
      ((computeChannelLayout 10 4).2).getD i 0 ≤
        ((computeChannelLayout 10 4).2).getD j 0 + 1) :=
  computeChannelLayout_invariants 4 10 (by decide) (by decide)

/--
Claim C3: for `C ∈ [1,16]` and any height, the extra pixels of the
remainder are granted in the center-out, left-first order described by
`grantOrder` — the heights are `base + 1` exactly on the first
`H mod C` channels of that order and `base` elsewhere — and each channel
receives at most one extra pixel.  Includes the spec's concrete case
`computeLayout(10, 4) = (offsets=[0,2,5,8], heights=[2,3,3,2])`.
-/
theorem computeChannelLayout_distribution (channelCount height : ℕ)
    (hc1 : 1 ≤ channelCount) (hc16 : channelCount ≤ 16)
    (hrem : 0 < height % channelCount) :
    (computeChannelLayout height channelCount).2 =
      (List.range channelCount).map (fun i =>
        height / channelCount +
          (if i ∈ (grantOrder channelCount).take (height % channelCount) then 1 else 0)) ∧
    (∀ i, i < channelCount →
      ((computeChannelLayout height channelCount).2).getD i 0 ≤
        height / channelCount + 1) ∧
    computeChannelLayout 10 4 = ([0, 2, 5, 8], [2, 3, 3, 2]) := by
  have hr : height % channelCount < channelCount := Nat.mod_lt _ (by omega)
  have hextralen :
      ((distributeExtras channelCount channelCount (height % channelCount) 0
        (List.replicate channelCount 0)).1).length = channelCount := by
    rw [distributeExtras_length]
    exact List.length_replicate _ _
  refine ⟨?_, ?_, by decide⟩
  · rw [computeChannelLayout_heights,
      distributeExtras_take_char channelCount (by omega) _ hr, List.map_map]
    rfl
  · intro i hi
    rw [computeChannelLayout_heights,
      List.getD_eq_getElem _ _ (by rw [List.length_map, hextralen]; omega),
      List.getElem_map]
    have hmem :
        (distributeExtras channelCount channelCount (height % channelCount) 0
          (List.replicate channelCount 0)).1[i] ∈
        (distributeExtras channelCount channelCount (height % channelCount) 0
          (List.replicate channelCount 0)).1 := List.getElem_mem _
    have := distributeExtras_le_one channelCount (by omega) _ hr _ hmem
    omega

/--
Concrete instantiation of claim C3 at `channelCount = 4`, `height = 10`
(remainder 2: the two extra pixels go to the center channels 1 and 2).
-/
theorem claim3_distribution_witness :
    (computeChannelLayout 10 4).2 =
      (List.range 4).map (fun i =>
        10 / 4 + (if i ∈ (grantOrder 4).take (10 % 4) then 1 else 0)) ∧
    (∀ i, i < 4 → ((computeChannelLayout 10 4).2).getD i 0 ≤ 10 / 4 + 1) ∧
    computeChannelLayout 10 4 = ([0, 2, 5, 8], [2, 3, 3, 2]) :=
  computeChannelLayout_distribution 4 10 (by decide) (by decide) (by decide)

/--
Claim C10: the remainder-distribution `while` loop terminates for every
height `H ≥ 0` and channel count `C ≥ 1`: it reaches `remaining = 0`
(the loop guard) within at most `C` iterations, and granting it any
further fuel leaves the result unchanged — the function is total.
-/
theorem distributeExtras_terminating (channelCount height : ℕ)
    (hc : 1 ≤ channelCount) :
    (distributeExtras channelCount channelCount (height % channelCount) 0
      (List.replicate channelCount 0)).2 = 0 ∧
    ∀ extraFuel,
      distributeExtras channelCount (channelCount + extraFuel)
        (height % channelCount) 0 (List.replicate channelCount 0) =
      distributeExtras channelCount channelCount (height % channelCount) 0
        (List.replicate channelCount 0) := by
  have hr : height % channelCount < channelCount := Nat.mod_lt _ (by omega)
  exact distributeExtras_invariant channelCount channelCount (height % channelCount) 0
    (List.replicate channelCount 0) (by omega) (by omega)

/-- One step of the shader's max-reduction loop computes a binary `max`. -/
theorem reduction_step_max (x b : ℚ) : (if b > x then b else x) = max x b := by
  rcases lt_trichotomy x b with h | h | h
  · rw [if_pos h, max_eq_right h.le]
  · subst h
    simp
  · rw [if_neg (not_lt.mpr h.le), max_eq_left h.le]

/--
Claim C2: with `channelCount = 4`, `samplesPerChannel = 100` and surface
width 50, the compute reduction assigns to pixel column `k < 50` exactly
the two consecutive per-channel samples `2k` and `2k+1` (the window is
`[2k, 2k+2)` and lies inside the channel), and the reduced value is the
maximum of the two normalized samples — a max-reduction, not an average.
Mean samples are magnitudes (nonnegative) and the normalizer is positive,
per the binary data model.
-/
theorem shaderReduction_window (waveform : List ℚ) (firstChannelPeak : ℚ)
    (hlen : waveform.length = 400) (hpeak : 0 < firstChannelPeak)
    (hpos : ∀ v ∈ waveform, 0 ≤ v)
    (k ch : ℕ) (hk : k < 50) (hch : ch < 4) :
    sampleWindowStart (samplesPerChannelOf waveform.length 4) 50 k = 2 * k ∧
    sampleWindowStop (samplesPerChannelOf waveform.length 4) 50 k = 2 * k + 2 ∧
    min (sampleWindowStop (samplesPerChannelOf waveform.length 4) 50 k)
      (samplesPerChannelOf waveform.length 4) = 2 * k + 2 ∧
    windowMaxValue waveform firstChannelPeak 4 ch (2 * k) (2 * k + 2) =
      max (waveform.getD (2 * k * 4 + ch) 0 / firstChannelPeak)
          (waveform.getD ((2 * k + 1) * 4 + ch) 0 / firstChannelPeak) := by
  have hspc : samplesPerChannelOf waveform.length 4 = 100 := by
    rw [hlen]
    decide
  have hratio : ((100 : ℕ) : ℚ) / ((50 : ℕ) : ℚ) = 2 := by norm_num
  have hstart : sampleWindowStart (samplesPerChannelOf waveform.length 4) 50 k = 2 * k := by
    rw [hspc]
    unfold sampleWindowStart
    rw [hratio]
    rw [show (k : ℚ) * 2 = ((2 * k : ℕ) : ℚ) by push_cast; ring]
    exact Nat.floor_natCast _
  have hstop : sampleWindowStop (samplesPerChannelOf waveform.length 4) 50 k = 2 * k + 2 := by
    rw [hspc]
    unfold sampleWindowStop
    rw [hratio]
    rw [show ((k : ℚ) + 1) * 2 = ((2 * k + 2 : ℕ) : ℚ) by push_cast; ring]
    exact Nat.floor_natCast _
  have hnn : ∀ i, i < waveform.length → 0 ≤ waveform.getD i 0 / firstChannelPeak := by
    intro i hi
    apply div_nonneg _ hpeak.le
    rw [List.getD_eq_getElem _ _ hi]
    exact hpos _ (List.getElem_mem _)
  have hv1 : 0 ≤ waveform.getD (2 * k * 4 + ch) 0 / firstChannelPeak :=
    hnn _ (by rw [hlen]; omega)
  refine ⟨hstart, hstop, by rw [hstop, hspc]; omega, ?_⟩
  unfold windowMaxValue
  rw [show 2 * k + 2 - 2 * k = 2 by omega]
  rw [List.range'_succ, List.range'_succ, List.range'_zero]
  simp only [List.foldl_cons, List.foldl_nil]
  simp only [reduction_step_max]
  rw [max_eq_right hv1, show 2 * k + 1 = 2 * k + 1 by rfl]

/--
Concrete instantiation of claim C2 on a constant dataset of 400 samples,
at pixel column 3, channel 2.
-/
theorem claim2_reduction_witness :
    sampleWindowStart (samplesPerChannelOf (List.replicate 400 (1 : ℚ)).length 4) 50 3 =
      2 * 3 ∧
    sampleWindowStop (samplesPerChannelOf (List.replicate 400 (1 : ℚ)).length 4) 50 3 =
      2 * 3 + 2 ∧
    min (sampleWindowStop (samplesPerChannelOf (List.replicate 400 (1 : ℚ)).length 4) 50 3)
      (samplesPerChannelOf (List.replicate 400 (1 : ℚ)).length 4) = 2 * 3 + 2 ∧
    windowMaxValue (List.replicate 400 (1 : ℚ)) 1 4 2 (2 * 3) (2 * 3 + 2) =
      max ((List.replicate 400 (1 : ℚ)).getD (2 * 3 * 4 + 2) 0 / 1)
          ((List.replicate 400 (1 : ℚ)).getD ((2 * 3 + 1) * 4 + 2) 0 / 1) :=
  shaderReduction_window (List.replicate 400 (1 : ℚ)) 1 (List.length_replicate _ _) (by norm_num)
    (fun v hv => by rw [List.eq_of_mem_replicate hv]; norm_num) 3 2 (by decide) (by decide)

/--
Concrete instantiation of claim C10 at `channelCount = 3`, `height = 5`.
-/
theorem claim10_termination_witness :
    (distributeExtras 3 3 (5 % 3) 0 (List.replicate 3 0)).2 = 0 ∧
    ∀ extraFuel,
      distributeExtras 3 (3 + extraFuel) (5 % 3) 0 (List.replicate 3 0) =
      distributeExtras 3 3 (5 % 3) 0 (List.replicate 3 0) :=
  distributeExtras_terminating 3 5 (by decide)





/--
Claim C4: the `maskGroup` setter throws exactly when the input is out of
range — index not in `{0,1,2}` or value outside `[0,1]` — and in that case
performs no mutation (the error is raised before any assignment); on valid
input it stores the value at the given index, leaves the other two entries
unchanged, and re-arms the dirty flag.
-/
theorem setMaskGroup_validation (s : VizState) (hlen : s.maskGroup.length = 3)
    (index : ℤ) (value : ℚ) :
    ((∃ msg, setMaskGroup s index value = Except.error msg) ↔
      ¬((index = 0 ∨ index = 1 ∨ index = 2) ∧ 0 ≤ value ∧ value ≤ 1)) ∧
    (∀ s', setMaskGroup s index value = Except.ok s' →
      s'.needsRender = true ∧
      s'.maskGroup.length = 3 ∧
      s'.maskGroup.getD index.toNat 0 = value ∧
      ∀ j, j ≠ index.toNat → s'.maskGroup.getD j 0 = s.maskGroup.getD j 0) := by
  by_cases hidx : index = 0 ∨ index = 1 ∨ index = 2
  · by_cases hval : value < 0 ∨ value > 1
    · rw [setMaskGroup, if_neg (not_not_intro hidx), if_pos hval]
      refine ⟨⟨fun _ => ?_, fun _ => ⟨_, rfl⟩⟩, fun s' hs' => Except.noConfusion hs'⟩
      rintro ⟨_, h0, h1⟩
      rcases hval with h | h
      · linarith
      · linarith
    · rw [setMaskGroup, if_neg (not_not_intro hidx), if_neg hval]
      push_neg at hval
      constructor
      · constructor
        · rintro ⟨msg, hmsg⟩
          exact Except.noConfusion hmsg
        · intro hcontra
          exact absurd ⟨hidx, hval.1, hval.2⟩ hcontra
      · intro s' hs'
        injection hs' with hs'
        subst hs'
        have htn : index.toNat < 3 := by
          rcases hidx with h | h | h <;> subst h <;> decide
        refine ⟨rfl, ?_, ?_, ?_⟩
        · simp [List.length_set, hlen]
        · show (s.maskGroup.set index.toNat value).getD index.toNat 0 = value
          rw [List.getD_eq_getElem _ _ (by rw [List.length_set]; omega)]
          exact List.getElem_set_self ..
        · intro j hj
          show (s.maskGroup.set index.toNat value).getD j 0 = s.maskGroup.getD j 0
          by_cases hj3 : j < 3
          · rw [List.getD_eq_getElem _ _ (by rw [List.length_set]; omega),
              List.getD_eq_getElem _ _ (by omega)]
            exact List.getElem_set_ne (fun h => hj h.symm) _
          · rw [List.getD_eq_default _ _ (by rw [List.length_set]; omega),
              List.getD_eq_default _ _ (by omega)]
  · rw [setMaskGroup, if_pos hidx]
    refine ⟨⟨fun _ => ?_, fun _ => ⟨_, rfl⟩⟩, fun s' hs' => Except.noConfusion hs'⟩
    rintro ⟨h, _⟩
    exact hidx h

/--
Concrete instantiation of claim C4 at a stored mask `[0, 0, 0]`,
`index = 1`, `value = 1/2`.
-/
theorem claim4_setter_witness :
    ((∃ msg, setMaskGroup ⟨[0, 0, 0], false⟩ 1 (1 / 2) = Except.error msg) ↔
      ¬(((1 : ℤ) = 0 ∨ (1 : ℤ) = 1 ∨ (1 : ℤ) = 2) ∧
        (0 : ℚ) ≤ 1 / 2 ∧ (1 / 2 : ℚ) ≤ 1)) ∧
    (∀ s', setMaskGroup ⟨[0, 0, 0], false⟩ 1 (1 / 2) = Except.ok s' →
      s'.needsRender = true ∧
      s'.maskGroup.length = 3 ∧
      s'.maskGroup.getD (1 : ℤ).toNat 0 = 1 / 2 ∧
      ∀ j, j ≠ (1 : ℤ).toNat →
        s'.maskGroup.getD j 0 = (VizState.mk [0, 0, 0] false).maskGroup.getD j 0) :=
  setMaskGroup_validation ⟨[0, 0, 0], false⟩ rfl 1 (1 / 2)

/--
Claim C6 counterexample: the loading path accepts a binary file of 20
bytes — a 5-element `Float32Array` — with no divisibility check, and the
consumer then uses it with `channelCount = 4` although `4 ∤ 5`: the
shader's `samplesPerChannel = 5 / 4 = 1` silently truncates.  So the
loading path does not establish or enforce the divisibility invariant.
-/
theorem loadBinaryFile_counterexample :
    loadBinaryFile true 20 = Except.ok 5 ∧
    ¬(5 % 4 = 0) ∧
    samplesPerChannelOf 5 4 = 1 ∧
    4 * samplesPerChannelOf 5 4 ≠ 5 :=
  ⟨rfl, by decide, rfl, by decide⟩

/--
Claim C6 (amended): the loading path performs no divisibility-by-
channel-count check — any successfully fetched buffer whose byte length
is a multiple of 4 loads, regardless of the channel count — and the
consumer copes by truncating: `samplesPerChannel = ⌊length / C⌋`, every
index the shader reads stays inside the array, and when the documented
input contract `C ∣ length` does hold the dataset is consumed exactly.
-/
theorem loadBinaryFile_no_divisibility_check (byteLength channelCount : ℕ)
    (halign : byteLength % 4 = 0) (hc : 1 ≤ channelCount) :
    loadBinaryFile true byteLength = Except.ok (byteLength / 4) ∧
    channelCount * samplesPerChannelOf (byteLength / 4) channelCount ≤ byteLength / 4 ∧
    (∀ i ch, i < samplesPerChannelOf (byteLength / 4) channelCount → ch < channelCount →
      i * channelCount + ch < byteLength / 4) ∧
    (channelCount ∣ byteLength / 4 →
      channelCount * samplesPerChannelOf (byteLength / 4) channelCount = byteLength / 4) := by
  refine ⟨?_, ?_, ?_, ?_⟩
  · rw [loadBinaryFile]
    simp [halign]
  · exact Nat.mul_div_le _ _
  · intro i ch hi hch
    unfold samplesPerChannelOf at hi
    calc i * channelCount + ch < i * channelCount + channelCount := by omega
    _ = (i + 1) * channelCount := by ring
    _ ≤ (byteLength / 4 / channelCount) * channelCount :=
        Nat.mul_le_mul_right _ (by omega)
    _ ≤ byteLength / 4 := Nat.div_mul_le_self _ _
  · intro hdvd
    exact Nat.mul_div_cancel' hdvd

/--
Concrete instantiation of the amended claim C6 at a 64-byte buffer
(16 elements) with `channelCount = 4`.
-/
theorem claim6_loading_witness :
    loadBinaryFile true 64 = Except.ok (64 / 4) ∧
    4 * samplesPerChannelOf (64 / 4) 4 ≤ 64 / 4 ∧
    (∀ i ch, i < samplesPerChannelOf (64 / 4) 4 → ch < 4 →
      i * 4 + ch < 64 / 4) ∧
    (4 ∣ 64 / 4 → 4 * samplesPerChannelOf (64 / 4) 4 = 64 / 4) :=
  loadBinaryFile_no_divisibility_check 64 4 (by decide) (by decide)

/--
Claim C7: disposal is idempotent — after `dispose` has run once, every
further call leaves the state unchanged and performs no effect (and, being
a total function, raises no error); hence callback cancellation,
orchestrator unregistration (with a failing unregister only logged),
buffer release and registry unsubscription each happen exactly once no
matter how many times disposal is invoked.
-/
theorem dispose_idempotent (s : VizLifecycleState) (n : ℕ) (hn : 1 ≤ n) :
    disposeTimes n s = disposeTimes 1 s ∧
    dispose (dispose s).1 = ((dispose s).1, []) := by
  have hclear : dispose (dispose s).1 = ((dispose s).1, []) := rfl
  have hfix : ∀ m, disposeTimes m (dispose s).1 = ((dispose s).1, []) := by
    intro m
    induction m with
    | zero => rfl
    | succ m ih =>
      simp only [disposeTimes]
      rw [hclear, ih]
      rfl
  refine ⟨?_, hclear⟩
  rcases n with _ | n
  · omega
  · simp only [disposeTimes]
    rw [hfix n]

/--
Concrete instantiation of claim C7: three disposals of a fully live
instance equal one disposal.
-/
theorem claim7_dispose_witness :
    disposeTimes 3
      ⟨false, true, some 7, some 8, true, true, true, true, true, true,
        some ⟨true, false⟩, some "waveform-a", true, true⟩ =
    disposeTimes 1
      ⟨false, true, some 7, some 8, true, true, true, true, true, true,
        some ⟨true, false⟩, some "waveform-a", true, true⟩ ∧
    dispose (dispose
      ⟨false, true, some 7, some 8, true, true, true, true, true, true,
        some ⟨true, false⟩, some "waveform-a", true, true⟩).1 =
    ((dispose
      ⟨false, true, some 7, some 8, true, true, true, true, true, true,
        some ⟨true, false⟩, some "waveform-a", true, true⟩).1, []) :=
  dispose_idempotent _ 3 (by decide)

/--
Claim C8: the registry's device acquisition is idempotent — once a call
has established the `GpuContext`, a further `configureDevice` call is a
no-op: it returns the same state (hence the same context instance),
requests no new adapter or device, and issues no broadcasts.
-/
theorem configureDevice_idempotent (env : GpuEnv) (s s' : ManagerState)
    (effects : List GpuEffect)
    (h : configureDevice env s = Except.ok (s', effects)) :
    configureDevice env s' = Except.ok (s', []) ∧ s'.context.isSome = true := by
  unfold configureDevice at h ⊢
  by_cases hgpu : env.gpuAvailable = false
  · rw [if_pos hgpu] at h
    exact Except.noConfusion h
  · rw [if_neg hgpu] at h ⊢
    by_cases hctx : s.context.isSome
    · rw [if_pos hctx] at h
      injection h with h
      injection h with h1 h2
      subst h1
      refine ⟨?_, hctx⟩
      rw [if_pos hctx]
    · rw [if_neg hctx] at h
      by_cases hadapter : env.adapterAvailable = false
      · rw [if_pos hadapter] at h
        exact Except.noConfusion h
      · rw [if_neg hadapter] at h
        injection h with h
        injection h with h1 h2
        subst h1
        refine ⟨?_, rfl⟩
        simp

/--
Concrete instantiation of claim C8: a first successful acquisition, then
the second call yields the same context with no effects.
-/
theorem claim8_device_witness :
    configureDevice ⟨true, true, 7⟩
      ⟨some ⟨7, none, none, "rgba16float", none⟩, [], []⟩ =
    Except.ok (⟨some ⟨7, none, none, "rgba16float", none⟩, [], []⟩, []) ∧
    (ManagerState.mk (some ⟨7, none, none, "rgba16float", none⟩) [] []).context.isSome
      = true :=
  configureDevice_idempotent ⟨true, true, 7⟩ ⟨none, [], []⟩
    ⟨some ⟨7, none, none, "rgba16float", none⟩, [], []⟩
    [GpuEffect.requestAdapter, GpuEffect.requestDevice] rfl

/--
Claim C5: every pixel's channel maps to exactly one of three mask groups
(channels 0–3 to group 0, 4–8 to group 1, 9–15 to group 2); when the
pixel's horizontal fraction exceeds that group's mask fraction, the
peak-brightness term is overridden to full brightness 1.0, and the final
output pair is (brightness = min(bar mask, overridden peak),
alpha = bar-mask presence).
-/
theorem shaderComputePixel_masking (p : WgslParams)
    (offsets heights waveform peaks : List ℚ) (x y : ℕ) (ci : ℕ)
    (hci : ci = findChannelIndex offsets heights p.channelCount (y : ℚ))
    (hx : x < p.canvasWidth) (hy : y < p.canvasHeight)
    (hmask : (x : ℚ) / (p.canvasWidth : ℚ) > maskFractionOf p (maskGroupIndexOf ci)) :
    (List.range 16).map maskGroupIndexOf =
      [0, 0, 0, 0, 1, 1, 1, 1, 1, 2, 2, 2, 2, 2, 2, 2] ∧
    shaderComputePixel p offsets heights waveform peaks x y =
      some
        (min (barColor (heights.getD ci 0) ((y : ℚ) - offsets.getD ci 0)
            (windowMaxValue waveform p.firstChannelPeak p.channelCount ci
              (sampleWindowStart (samplesPerChannelOf waveform.length p.channelCount)
                p.canvasWidth x)
              (min (sampleWindowStop (samplesPerChannelOf waveform.length p.channelCount)
                  p.canvasWidth x)
                (samplesPerChannelOf waveform.length p.channelCount)))).1
          1,
        (barColor (heights.getD ci 0) ((y : ℚ) - offsets.getD ci 0)
            (windowMaxValue waveform p.firstChannelPeak p.channelCount ci
              (sampleWindowStart (samplesPerChannelOf waveform.length p.channelCount)
                p.canvasWidth x)
              (min (sampleWindowStop (samplesPerChannelOf waveform.length p.channelCount)
                  p.canvasWidth x)
                (samplesPerChannelOf waveform.length p.channelCount)))).2) := by
  subst hci
  refine ⟨by decide, ?_⟩
  simp only [shaderComputePixel]
  rw [if_neg (by push_neg; exact ⟨hx, hy⟩)]
  rw [if_pos hmask]

/--
Concrete instantiation of claim C5 on a one-channel surface of width 2,
at the pixel (1, 0), whose horizontal fraction 1/2 exceeds the zero mask
fraction of group 0.
-/
theorem claim5_masking_witness :
    (List.range 16).map maskGroupIndexOf =
      [0, 0, 0, 0, 1, 1, 1, 1, 1, 2, 2, 2, 2, 2, 2, 2] ∧
    shaderComputePixel wgslExampleParams [0] [1] [1] [1] 1 0 =
      some
        (min (barColor (([1] : List ℚ).getD 0 0) (((0 : ℕ) : ℚ) - ([0] : List ℚ).getD 0 0)
            (windowMaxValue [1] wgslExampleParams.firstChannelPeak
              wgslExampleParams.channelCount 0
              (sampleWindowStart (samplesPerChannelOf ([1] : List ℚ).length
                  wgslExampleParams.channelCount)
                wgslExampleParams.canvasWidth 1)
              (min (sampleWindowStop (samplesPerChannelOf ([1] : List ℚ).length
                    wgslExampleParams.channelCount)
                  wgslExampleParams.canvasWidth 1)
                (samplesPerChannelOf ([1] : List ℚ).length
                  wgslExampleParams.channelCount)))).1
          1,
        (barColor (([1] : List ℚ).getD 0 0) (((0 : ℕ) : ℚ) - ([0] : List ℚ).getD 0 0)
            (windowMaxValue [1] wgslExampleParams.firstChannelPeak
              wgslExampleParams.channelCount 0
              (sampleWindowStart (samplesPerChannelOf ([1] : List ℚ).length
                  wgslExampleParams.channelCount)
                wgslExampleParams.canvasWidth 1)
              (min (sampleWindowStop (samplesPerChannelOf ([1] : List ℚ).length
                    wgslExampleParams.channelCount)
                  wgslExampleParams.canvasWidth 1)
                (samplesPerChannelOf ([1] : List ℚ).length
                  wgslExampleParams.channelCount)))).2) :=
  shaderComputePixel_masking wgslExampleParams [0] [1] [1] [1] 1 0 0
    (by norm_num [findChannelIndex, wgslExampleParams, List.find?])
    (by norm_num [wgslExampleParams]) (by norm_num [wgslExampleParams])
    (by norm_num [maskFractionOf, maskGroupIndexOf, wgslExampleParams])

/--
Claim C9: after a dynamic-range capability change, a failure to
reconfigure one tracked surface is caught and logged and does not prevent
the others: with surfaces `[cA, cB]` where `cA` rejects every
configuration (including the fallback) while `cB` accepts the already
active preferred pair, the handler still succeeds, all subscribers are
notified, the failure for `cA` is only logged, and `cB` still receives
its reconfiguration.
-/
theorem hdrChange_isolation (accept : ℕ → String × String → Bool)
    (s : ManagerState) (ctx : GpuContextData) (cA cB : ℕ) (isHigh : Bool)
    (hctx : s.context = some ctx)
    (hformat : ctx.format = some "rgba16float")
    (hcs : ctx.colorSpace = some "rec2100-hlg")
    (hcanv : s.canvases = [cA, cB])
    (hA : ∀ pair, accept cA pair = false)
    (hB : accept cB ("rgba16float", "rec2100-hlg") = true) :
    ∃ s', hdrChange accept s isHigh = Except.ok (s',
        s.listeners.map GpuEffect.notify ++
          [GpuEffect.warnReconfigFailed cA,
           GpuEffect.configured cB "rgba16float" "rec2100-hlg"]) ∧
      GpuEffect.configured cB "rgba16float" "rec2100-hlg" ∈
        (s.listeners.map GpuEffect.notify ++
          [GpuEffect.warnReconfigFailed cA,
           GpuEffect.configured cB "rgba16float" "rec2100-hlg"]) ∧
      GpuEffect.warnReconfigFailed cA ∈
        (s.listeners.map GpuEffect.notify ++
          [GpuEffect.warnReconfigFailed cA,
           GpuEffect.configured cB "rgba16float" "rec2100-hlg"]) ∧
      ∀ l ∈ s.listeners, GpuEffect.notify l ∈
        (s.listeners.map GpuEffect.notify ++
          [GpuEffect.warnReconfigFailed cA,
           GpuEffect.configured cB "rgba16float" "rec2100-hlg"]) := by
  obtain ⟨sctx, listeners, canvases⟩ := s
  simp only at hctx hcanv ⊢
  subst hctx
  subst hcanv
  set ctx' : GpuContextData := { ctx with isHighDynamicRange := some isHigh } with hctx'
  set s₀ : ManagerState := ⟨some ctx', listeners, [cA, cB]⟩ with hs₀
  have hfindA : candidatePairs.find? (fun pair => accept cA pair) = none := by
    apply List.find?_eq_none.mpr
    intro p _
    rw [hA]
    simp
  have hcfgA : configureCanvas accept s₀ cA = Except.error "configure failed" := by
    simp only [configureCanvas, hs₀]
    rw [hfindA, hA]
    simp
  have hcand : candidatePairs = ("rgba16float", "rec2100-hlg") ::
      [("rgba16float", "display-p3"), ("rgba16float", "srgb"),
       ("rgba8unorm", "display-p3"), ("rgba8unorm", "srgb")] := rfl
  have hfindB : candidatePairs.find? (fun pair => accept cB pair) =
      some ("rgba16float", "rec2100-hlg") := by
    rw [hcand]
    exact List.find?_cons_of_pos _ hB
  have hctxformat : ctx'.format = some "rgba16float" := hformat
  have hctxcs : ctx'.colorSpace = some "rec2100-hlg" := hcs
  set ctxB : GpuContextData :=
    { ctx' with format := some "rgba16float", colorSpace := some "rec2100-hlg" }
    with hctxB
  set sB : ManagerState :=
    { s₀ with context := some ctxB, canvases := addCanvas s₀.canvases cB } with hsB
  have hcfgB : configureCanvas accept s₀ cB = Except.ok
      (sB, [GpuEffect.configured cB "rgba16float" "rec2100-hlg"]) := by
    simp only [configureCanvas, hs₀]
    rw [hfindB]
    simp [hformat, hcs, hsB, hctxB, hs₀]
  simp only [hdrChange]
  rw [List.foldl_cons, List.foldl_cons, List.foldl_nil]
  rw [show (reconfigureStep accept (s₀, listeners.map GpuEffect.notify) cA) =
      (s₀, listeners.map GpuEffect.notify ++ [GpuEffect.warnReconfigFailed cA]) by
    simp only [reconfigureStep]
    rw [hcfgA]]
  rw [show (reconfigureStep accept
        (s₀, listeners.map GpuEffect.notify ++ [GpuEffect.warnReconfigFailed cA]) cB) =
      (sB,
        (listeners.map GpuEffect.notify ++ [GpuEffect.warnReconfigFailed cA]) ++
          [GpuEffect.configured cB "rgba16float" "rec2100-hlg"]) by
    simp only [reconfigureStep]
    rw [hcfgB]]
  refine ⟨_, by rw [List.append_assoc]; rfl, by simp, by simp, ?_⟩
  intro l hl
  simp only [List.mem_append, List.mem_map]
  exact Or.inl ⟨l, hl, rfl⟩

/--
Concrete instantiation of claim C9: canvases `[1, 2]`, listener `[5]`;
canvas 1 rejects every configuration, canvas 2 accepts the active pair.
-/
theorem claim9_isolation_witness :
    ∃ s', hdrChange (fun c _ => decide (c = 2))
        ⟨some ⟨7, some "rgba16float", some "rec2100-hlg", "rgba16float", some false⟩,
          [5], [1, 2]⟩ true =
      Except.ok (s',
        ([5] : List ℕ).map GpuEffect.notify ++
          [GpuEffect.warnReconfigFailed 1,
           GpuEffect.configured 2 "rgba16float" "rec2100-hlg"]) ∧
      GpuEffect.configured 2 "rgba16float" "rec2100-hlg" ∈
        (([5] : List ℕ).map GpuEffect.notify ++
          [GpuEffect.warnReconfigFailed 1,
           GpuEffect.configured 2 "rgba16float" "rec2100-hlg"]) ∧
      GpuEffect.warnReconfigFailed 1 ∈
        (([5] : List ℕ).map GpuEffect.notify ++
          [GpuEffect.warnReconfigFailed 1,
           GpuEffect.configured 2 "rgba16float" "rec2100-hlg"]) ∧
      ∀ l ∈ ([5] : List ℕ), GpuEffect.notify l ∈
        (([5] : List ℕ).map GpuEffect.notify ++
          [GpuEffect.warnReconfigFailed 1,
           GpuEffect.configured 2 "rgba16float" "rec2100-hlg"]) :=
  hdrChange_isolation (fun c _ => decide (c = 2))
    ⟨some ⟨7, some "rgba16float", some "rec2100-hlg", "rgba16float", some false⟩,
      [5], [1, 2]⟩
    ⟨7, some "rgba16float", some "rec2100-hlg", "rgba16float", some false⟩
    1 2 true rfl rfl rfl rfl (fun _ => rfl) rfl
